import Mathlib

/-!
# BansheeEngine: script resource registry and IBL cubemap passes

A shallow embedding of two translation units of the engine:

* `Source/SBansheeEngine/Source/BsScriptResourceManager.cpp`: the registry that maps a
  resource UUID to the script object mirroring that resource;
* `Source/BansheeEngine/Source/BsIBLUtility.cpp`: the sequence of copies and
  screen-quad passes issued when a cubemap is scaled or filtered.

Stateful C++ is written as explicit state passing. Pointers are natural numbers with
`0` for `nullptr`; `UINT32` arithmetic that can wrap is reduced modulo `2 ^ 32`.
-/

namespace bs

/-! ## Script resource manager: data model -/

/-- Raw pointer value (`ScriptResourceBase*`, `MonoObject*`). -/
abbrev Ptr := Nat

/-- The null pointer. -/
def nullptr : Ptr := 0

/-- Generic resource handle (`HResource`): the UUID returned by `getUUID()` and the id
returned by `resource->getRTTI()->getRTTIId()`. -/
structure HResource where
  uuid : String
  rttiId : Nat
  deriving DecidableEq, Repr

/-- Managed resource handle (`HManagedResource`): only `getUUID()` is used. -/
structure HManagedResource where
  uuid : String
  deriving DecidableEq, Repr

/-- The two exception types raised through `BS_EXCEPT` in this translation unit. -/
inductive Exception where
  | InvalidParametersException
  | InvalidStateException
  deriving DecidableEq, Repr

/-- Entry of the script assembly manager's table (`BuiltinResourceInfo`); only its
`createCallback(resource, instance)` is used here. -/
structure BuiltinResourceInfo where
  createCallback : HResource → Ptr → Ptr

/-- What the translation unit takes from outside: the compile-time switch `BS_DEBUG_MODE`
and `ScriptAssemblyManager::instance().getBuiltinResourceInfo`, where `none` stands for
the `nullptr` result. -/
structure Env where
  BS_DEBUG_MODE : Bool
  getBuiltinResourceInfo : Nat → Option BuiltinResourceInfo

/-- A script resource object as seen through a `ScriptResourceBase*`: its address and
the handle returned by `getGenericHandle()`. -/
structure ScriptResourceBase where
  addr : Ptr
  genericHandle : HResource
  deriving DecidableEq, Repr

/-- Observable actions on script resource objects, in program order. -/
inductive ObjEvent where
  /-- Placement-new of a `ScriptManagedResource(instance, resource)` at address `obj`. -/
  | construct (obj : Ptr) (inst : Ptr) (resource : HManagedResource)
  /-- Call of `info->createCallback(resource, instance)` returning `result`. -/
  | createCallback (resource : HResource) (inst : Ptr) (result : Ptr)
  /-- Call of `obj->notifyResourceDestroyed()`. -/
  | notifyResourceDestroyed (obj : Ptr)
  /-- Destructor call followed by `MemoryAllocator<GenAlloc>::free(obj)`. -/
  | destroy (obj : Ptr)
  deriving DecidableEq, Repr

/-- The container `UnorderedMap<String, ScriptResourceBase*>` as an association list. -/
abbrev UnorderedMap := List (String × Ptr)

namespace UnorderedMap

/-- Lookup `m.find(key)`: `none` stands for `m.end()`, `some p` for an iterator whose
`second` is `p`. -/
def find : UnorderedMap → String → Option Ptr
  | [], _ => none
  | (k, v) :: m, key => if k = key then some v else find m key

/-- Assignment `m[key] = value`: overwrites the entry of `key` or adds one. -/
def assign : UnorderedMap → String → Ptr → UnorderedMap
  | [], key, value => [(key, value)]
  | (k, v) :: m, key, value =>
    if k = key then (key, value) :: m else (k, v) :: assign m key value

/-- Removal `m.erase(key)`; `m.erase(it)` for the iterator `it = m.find(key)` removes the
same entry. -/
def erase : UnorderedMap → String → UnorderedMap
  | [], _ => []
  | (k, v) :: m, key => if k = key then erase m key else (k, v) :: erase m key

end UnorderedMap

/-- State of `ScriptResourceManager` together with the log of actions performed on
script resource objects. -/
structure ScriptResourceManager where
  mScriptResources : UnorderedMap
  objLog : List ObjEvent
  deriving DecidableEq, Repr

namespace ScriptResourceManager

/-! ## Script resource manager: operations -/

/-- Source: `ScriptResourceManager::_throwExceptionIfInvalidOrDuplicate`. -/
def _throwExceptionIfInvalidOrDuplicate (self : ScriptResourceManager) (uuid : String) :
    Except Exception Unit :=
  if uuid = "" then
    .error .InvalidParametersException
  else
    match self.mScriptResources.find uuid with
    | some _ => .error .InvalidStateException
    | none => .ok ()

/-- The block `#if BS_DEBUG_MODE _throwExceptionIfInvalidOrDuplicate(uuid); #endif`. -/
def debugValidate (env : Env) (self : ScriptResourceManager) (uuid : String) :
    Except Exception Unit :=
  if env.BS_DEBUG_MODE then self._throwExceptionIfInvalidOrDuplicate uuid else .ok ()

/-- Source: `ScriptResourceManager::createManagedScriptResource`. The extra argument `mem`
is the address returned by `bs_alloc<ScriptManagedResource>()`. A raised exception leaves
the state as it was when the exception was thrown. -/
def createManagedScriptResource (env : Env) (self : ScriptResourceManager)
    (resource : HManagedResource) (inst : Ptr) (mem : Ptr) :
    Except Exception Ptr × ScriptResourceManager :=
  let uuid := resource.uuid
  match debugValidate env self uuid with
  | .error e => (.error e, self)
  | .ok _ =>
    let scriptResource : Ptr := mem
    (.ok scriptResource,
      { mScriptResources := self.mScriptResources.assign uuid scriptResource
        objLog := self.objLog ++ [.construct mem inst resource] })

/-- Source: `ScriptResourceManager::createBuiltinScriptResource`. -/
def createBuiltinScriptResource (env : Env) (self : ScriptResourceManager)
    (resource : HResource) (inst : Ptr) :
    Except Exception Ptr × ScriptResourceManager :=
  let uuid := resource.uuid
  match debugValidate env self uuid with
  | .error e => (.error e, self)
  | .ok _ =>
    let rttiId := resource.rttiId
    match env.getBuiltinResourceInfo rttiId with
    | none => (.ok nullptr, self)
    | some info =>
      let scriptResource := info.createCallback resource inst
      (.ok scriptResource,
        { mScriptResources := self.mScriptResources.assign uuid scriptResource
          objLog := self.objLog ++ [.createCallback resource inst scriptResource] })

/-- Source: `ScriptResourceManager::getScriptResource(const String& uuid)`. -/
def getScriptResourceByUUID (self : ScriptResourceManager) (uuid : String) : Ptr :=
  if uuid = "" then
    nullptr
  else
    match self.mScriptResources.find uuid with
    | some p => p
    | none => nullptr

/-- Source: `ScriptResourceManager::getScriptResource(const HResource& resource, bool create)`.
The call `createBuiltinScriptResource(resource)` passes no managed instance, which is
the null pointer. -/
def getScriptResource (env : Env) (self : ScriptResourceManager)
    (resource : HResource) (create : Bool) :
    Except Exception Ptr × ScriptResourceManager :=
  let uuid := resource.uuid
  if uuid = "" then
    (.ok nullptr, self)
  else
    let output := self.getScriptResourceByUUID uuid
    if output = nullptr ∧ create = true then
      createBuiltinScriptResource env self resource nullptr
    else
      (.ok output, self)

/-- Source: `ScriptResourceManager::destroyScriptResource`. -/
def destroyScriptResource (self : ScriptResourceManager) (resource : ScriptResourceBase) :
    Except Exception Unit × ScriptResourceManager :=
  let resourceHandle := resource.genericHandle
  let uuid := resourceHandle.uuid
  if uuid = "" then
    (.error .InvalidParametersException, self)
  else
    (.ok (),
      { mScriptResources := self.mScriptResources.erase uuid
        objLog := self.objLog ++ [.destroy resource.addr] })

/-- Source: `ScriptResourceManager::onResourceDestroyed`, the slot connected to
`gResources().onResourceDestroyed` by the constructor. Line 105 calls
`findIter->second->notifyResourceDestroyed()` without a null check: when the stored
pointer is null the call goes through a null pointer, the behaviour is undefined and
there is no resulting state (`none`). -/
def onResourceDestroyed (self : ScriptResourceManager) (UUID : String) :
    Option ScriptResourceManager :=
  match self.mScriptResources.find UUID with
  | some p =>
    if p = nullptr then
      none
    else
      some
        { mScriptResources := self.mScriptResources.erase UUID
          objLog := self.objLog ++ [.notifyResourceDestroyed p] }
  | none => some self

end ScriptResourceManager

namespace ct

/-! ## IBL utility: data model -/

/-- Reduction of a natural number to the range of `UINT32`. -/
def u32 (n : Nat) : Nat := n % 2 ^ 32

/-- Texture type; the translation unit only creates cubemaps. -/
inductive TextureType where
  | TEX_TYPE_CUBE_MAP
  deriving DecidableEq, Repr

/-- Usage flags that occur in the translation unit. -/
inductive TextureUsage where
  | TU_STATIC
  | TU_RENDERTARGET
  deriving DecidableEq, Repr

/-- The fields of `TEXTURE_DESC` that the translation unit assigns; `usage` lists the
flags joined with `|`. -/
structure TEXTURE_DESC where
  type : TextureType
  format : Nat
  width : Nat
  height : Nat
  numMips : Nat
  usage : List TextureUsage
  deriving DecidableEq, Repr

/-- The fields of `TextureProperties` that are read: `getFormat()`, `getWidth()`,
`getHeight()` and `getNumMipmaps()`. -/
structure TextureProperties where
  format : Nat
  width : Nat
  height : Nat
  numMips : Nat
  deriving DecidableEq, Repr

/-- A non-null `SPtr<Texture>`: either a texture handed in by the caller, identified by
`id`, or the texture returned by `Texture::create(desc)` during the call. -/
inductive Texture where
  | given (id : Nat) (props : TextureProperties)
  | created (desc : TEXTURE_DESC)
  deriving DecidableEq, Repr

/-- Source: `Texture::create(desc)`. -/
def Texture.create (desc : TEXTURE_DESC) : Texture := .created desc

/-- Source: `texture->getProperties()`. -/
def Texture.getProperties : Texture → TextureProperties
  | .given _ props => props
  | .created desc =>
    { format := desc.format, width := desc.width, height := desc.height
      numMips := desc.numMips }

/-- Value built by `TextureSurface(mipLevel, numMipLevels, face, numFaces)`. -/
structure TextureSurface where
  mipLevel : Nat
  numMipLevels : Nat
  face : Nat
  numFaces : Nat
  deriving DecidableEq, Repr

/-- Render target returned by `RenderTexture::create(desc)`, described by the fields of
`desc.colorSurfaces[0]`. -/
structure RenderTarget where
  texture : Texture
  face : Nat
  numFaces : Nat
  mipLevel : Nat
  deriving DecidableEq, Repr

/-- Material and parameters bound for a screen-quad draw. Every `execute` assigns all
integer parameters and the input texture of its material before drawing, so a draw is
described by the arguments of that `execute`. The float `gPrecomputedMipFactor` is left
out. -/
inductive PassParams where
  /-- Pass of `ReflectionCubeDownsampleMat`: `gInputTex` with its surface, `gCubeFace`. -/
  | downsample (gInputTex : Texture) (surface : TextureSurface) (gCubeFace : Nat)
  /-- Pass of `ReflectionCubeImportanceSampleMat`: `gInputTex`, `gCubeFace`, `gMipLevel`,
  `gNumMips`. -/
  | importanceSample (gInputTex : Texture) (gCubeFace : Nat) (gMipLevel : Nat)
      (gNumMips : Nat)
  deriving DecidableEq, Repr

/-- GPU operations issued by the translation unit. -/
inductive GpuOp where
  /-- Call `src->copy(target, srcFace, srcMip, dstFace, dstMip)`. -/
  | copy (src : Texture) (target : Texture) (srcFace : Nat) (srcMip : Nat)
      (dstFace : Nat) (dstMip : Nat)
  /-- Call `drawScreenQuad()` with the render target and pass bound at that moment. -/
  | drawScreenQuad (target : Option RenderTarget) (pass : PassParams)
  deriving DecidableEq, Repr

/-- State of the render API: the bound render target (`none` for `nullptr`) and the
operations issued so far, oldest first. -/
structure RenderAPI where
  renderTarget : Option RenderTarget
  ops : List GpuOp
  deriving DecidableEq, Repr

/-! ## IBL utility: operations -/

/-- Source: `rapi.setRenderTarget(target)`. -/
def RenderAPI.setRenderTarget (target : Option RenderTarget) (api : RenderAPI) :
    RenderAPI :=
  { api with renderTarget := target }

/-- Source: `gRendererUtility().drawScreenQuad()` after `setPass` and `setPassParams`. -/
def RenderAPI.drawScreenQuad (pass : PassParams) (api : RenderAPI) : RenderAPI :=
  { api with ops := api.ops ++ [.drawScreenQuad api.renderTarget pass] }

/-- Source: `Texture::copy` as called in this unit,
`src->copy(target, srcFace, srcMip, dstFace, dstMip)`. -/
def Texture.copy (src target : Texture) (srcFace srcMip dstFace dstMip : Nat)
    (api : RenderAPI) : RenderAPI :=
  { api with ops := api.ops ++ [.copy src target srcFace srcMip dstFace dstMip] }

/-- Loop body run for `i, i + 1, ..., i + count - 1`. -/
def forRange {σ : Type} (body : Nat → σ → σ) : Nat → Nat → σ → σ
  | _, 0, s => s
  | i, count + 1, s => forRange body (i + 1) count (body i s)

/-- The loop `for (UINT32 i = lo; i < hi; i++) body(i)`. -/
def forLoop {σ : Type} (lo hi : Nat) (body : Nat → σ → σ) (s : σ) : σ :=
  forRange body lo (hi - lo) s

/-- Source: `ReflectionCubeDownsampleMat::execute`. -/
def ReflectionCubeDownsampleMat.execute (source : Texture) (face : Nat)
    (surface : TextureSurface) (target : RenderTarget) (api : RenderAPI) : RenderAPI :=
  let api := RenderAPI.setRenderTarget (some target) api
  RenderAPI.drawScreenQuad (.downsample source surface face) api

/-- Source: `ReflectionCubeImportanceSampleMat::execute`. -/
def ReflectionCubeImportanceSampleMat.execute (source : Texture) (face mip : Nat)
    (target : RenderTarget) (api : RenderAPI) : RenderAPI :=
  let gNumMips := u32 (source.getProperties.numMips + 1)
  let api := RenderAPI.setRenderTarget (some target) api
  RenderAPI.drawScreenQuad (.importanceSample source face mip gNumMips) api

/-- Source: `IBLUtility::downsampleCubemap`. -/
def downsampleCubemap (src : Texture) (srcMip : Nat) (dst : Texture) (dstMip : Nat)
    (api : RenderAPI) : RenderAPI :=
  forLoop 0 6 (fun face api =>
    let target : RenderTarget :=
      { texture := dst, face := face, numFaces := 1, mipLevel := dstMip }
    let sourceSurface : TextureSurface :=
      { mipLevel := srcMip, numMipLevels := 1, face := 0, numFaces := 6 }
    ReflectionCubeDownsampleMat.execute src face sourceSurface target api) api

/-- The value of the local `scratchCubemap` of `IBLUtility::filterCubemapForSpecular`: the
caller's scratch texture, or for a null `scratch` a cubemap created with the format and
size of `cubemap` and `PixelUtil::getMaxMipmaps(width, height, 1, format)` mip levels.
`getMaxMipmaps` is defined outside the translation unit. -/
def specularScratch (getMaxMipmaps : Nat → Nat → Nat → Nat → Nat)
    (cubemap : Texture) (scratch : Option Texture) : Texture :=
  let props := cubemap.getProperties
  match scratch with
  | some t => t
  | none =>
    Texture.create
      { type := .TEX_TYPE_CUBE_MAP
        format := props.format
        width := props.width
        height := props.height
        numMips := getMaxMipmaps props.width props.height 1 props.format
        usage := [.TU_STATIC, .TU_RENDERTARGET] }

/-- Source: `IBLUtility::filterCubemapForSpecular`; `scratch = none` is the null `SPtr`. -/
def filterCubemapForSpecular (getMaxMipmaps : Nat → Nat → Nat → Nat → Nat)
    (cubemap : Texture) (scratch : Option Texture) (api : RenderAPI) : RenderAPI :=
  let props := cubemap.getProperties
  let scratchCubemap : Texture := specularScratch getMaxMipmaps cubemap scratch
  let numMips := props.numMips
  let api := forLoop 0 6 (fun face api =>
    Texture.copy cubemap scratchCubemap face 0 face 0 api) api
  let api := forLoop 1 numMips (fun mip api =>
    let sourceMip := mip - 1
    downsampleCubemap scratchCubemap sourceMip scratchCubemap mip api) api
  let api := forLoop 1 numMips (fun mip api =>
    forLoop 0 6 (fun face api =>
      let target : RenderTarget :=
        { texture := cubemap, face := face, numFaces := 1, mipLevel := mip }
      ReflectionCubeImportanceSampleMat.execute scratchCubemap face mip target api) api) api
  RenderAPI.setRenderTarget none api

/-- Halving count of `n`, at most `fuel` steps: the integer part of the binary logarithm
of `n` for `1 ≤ n < 2 ^ (fuel + 1)`. -/
def log2Steps : Nat → Nat → Nat
  | 0, _ => 0
  | fuel + 1, n => if 2 ≤ n then log2Steps fuel (n / 2) + 1 else 0

/-- The draw of one face of a downsample pass from `(src, srcMip)` into `(dst, dstMip)`. -/
def downsampleDraw (src : Texture) (srcMip : Nat) (dst : Texture) (dstMip : Nat)
    (face : Nat) : GpuOp :=
  .drawScreenQuad (some { texture := dst, face := face, numFaces := 1, mipLevel := dstMip })
    (.downsample src { mipLevel := srcMip, numMipLevels := 1, face := 0, numFaces := 6 } face)

/-- The six draws of a downsample pass from `(src, srcMip)` into `(dst, dstMip)`. -/
def downsampleOps (src : Texture) (srcMip : Nat) (dst : Texture) (dstMip : Nat) :
    List GpuOp :=
  (List.range 6).map (downsampleDraw src srcMip dst dstMip)

/-- The importance-sample pass with render target `(cubemap, face, mip)`, input texture
`scratch` and parameters `gCubeFace = face`, `gMipLevel = mip`. -/
def importanceDraw (cubemap scratch : Texture) (face mip : Nat) : GpuOp :=
  .drawScreenQuad (some { texture := cubemap, face := face, numFaces := 1, mipLevel := mip })
    (.importanceSample scratch face mip (u32 (scratch.getProperties.numMips + 1)))

/-- The copies of the six faces from `(src, srcMip)` to `(dst, dstMip)`. -/
def copyFacesOps (src : Texture) (srcMip : Nat) (dst : Texture) (dstMip : Nat) :
    List GpuOp :=
  (List.range 6).map (fun face => GpuOp.copy src dst face srcMip face dstMip)

/-- Whether an operation is a draw of the downsample material. -/
def GpuOp.isDownsample : GpuOp → Bool
  | .drawScreenQuad _ (.downsample _ _ _) => true
  | _ => false

/-- Render API with nothing bound and nothing issued. -/
def freshApi : RenderAPI := { renderTarget := none, ops := [] }

/-- Caller-supplied cubemap number `id` of the given square size and `getNumMipmaps()`. -/
def cubeOfSize (id size numMips : Nat) : Texture :=
  .given id { format := 0, width := size, height := size, numMips := numMips }

/-- Stand-in for `PixelUtil::getMaxMipmaps` on square textures: the halving count of the
width. -/
def sampleMaxMipmaps (width _height _depth _format : Nat) : Nat := log2Steps 32 width

end ct

/-! ## Script resource manager: notions used by the statements -/

namespace ScriptResourceManager

/-- A UUID is registered when the map has an entry under it, that is when
`mScriptResources.find(uuid) != mScriptResources.end()`. -/
def registered (self : ScriptResourceManager) (uuid : String) : Bool :=
  (self.mScriptResources.find uuid).isSome

/-- Manager with no entry and no recorded action. -/
def empty : ScriptResourceManager := { mScriptResources := [], objLog := [] }

end ScriptResourceManager

/-- Debug build in which the assembly manager knows no builtin resource type. -/
def debugEnvNoInfo : Env :=
  { BS_DEBUG_MODE := true, getBuiltinResourceInfo := fun _ => none }

/-- Debug build in which every RTTI id has an info whose callback returns the address
`rttiId + 100`. -/
def debugEnvWithInfo : Env :=
  { BS_DEBUG_MODE := true
    getBuiltinResourceInfo := fun _ => some { createCallback := fun r _ => r.rttiId + 100 } }

/-- Debug build in which every RTTI id has an info whose callback returns the null
pointer. -/
def debugEnvNullCallback : Env :=
  { BS_DEBUG_MODE := true
    getBuiltinResourceInfo := fun _ => some { createCallback := fun _ _ => nullptr } }

/-- Handle of a builtin resource with UUID `"tex"` and RTTI id 3. -/
def texHandle : HResource := { uuid := "tex", rttiId := 3 }

/-- Manager in which `"tex"` is registered under the object at address 7. -/
def texManager : ScriptResourceManager :=
  { mScriptResources := [("tex", 7)], objLog := [] }

/-- Manager in which `"tex"` is registered under the null pointer, as left behind by a
create callback that returned null. -/
def nullEntryManager : ScriptResourceManager :=
  { mScriptResources := [("tex", nullptr)]
    objLog := [.createCallback texHandle nullptr nullptr] }

/-! ## Script resource manager: lemmas on the map -/

namespace UnorderedMap

theorem find_assign_self (m : UnorderedMap) (key : String) (value : Ptr) :
    find (assign m key value) key = some value := by
  induction m with
  | nil => simp [assign, find]
  | cons e m ih =>
    obtain ⟨k, v⟩ := e
    by_cases h : k = key
    · simp [assign, find, h]
    · simp [assign, find, h, ih]

theorem find_assign_ne (m : UnorderedMap) (key other : String) (value : Ptr)
    (h : other ≠ key) : find (assign m key value) other = find m other := by
  induction m with
  | nil => simp [assign, find, Ne.symm h]
  | cons e m ih =>
    obtain ⟨k, v⟩ := e
    by_cases hk : k = key
    · subst hk
      simp [assign, find, Ne.symm h]
    · by_cases ho : k = other
      · subst ho
        simp [assign, find, h]
      · simp [assign, find, hk, ho, ih]

theorem find_erase_self (m : UnorderedMap) (key : String) :
    find (erase m key) key = none := by
  induction m with
  | nil => simp [erase, find]
  | cons e m ih =>
    obtain ⟨k, v⟩ := e
    by_cases h : k = key
    · simp [erase, h, ih]
    · simp [erase, find, h, ih]

theorem find_erase_ne (m : UnorderedMap) (key other : String) (h : other ≠ key) :
    find (erase m key) other = find m other := by
  induction m with
  | nil => simp [erase, find]
  | cons e m ih =>
    obtain ⟨k, v⟩ := e
    by_cases hk : k = key
    · subst hk
      simp [erase, find, Ne.symm h, ih]
    · by_cases ho : k = other
      · subst ho
        simp [erase, find, h]
      · simp [erase, find, hk, ho, ih]

end UnorderedMap

namespace ScriptResourceManager

theorem getScriptResourceByUUID_of_find (self : ScriptResourceManager) (uuid : String)
    (p : Ptr) (h : self.mScriptResources.find uuid = some p) :
    self.getScriptResourceByUUID uuid = (if uuid = "" then nullptr else p) := by
  simp [getScriptResourceByUUID, h]

theorem getScriptResourceByUUID_of_not_found (self : ScriptResourceManager) (uuid : String)
    (h : self.mScriptResources.find uuid = none) :
    self.getScriptResourceByUUID uuid = nullptr := by
  simp [getScriptResourceByUUID, h]

theorem getScriptResourceByUUID_congr (s₁ s₂ : ScriptResourceManager) (uuid : String)
    (h : s₁.mScriptResources.find uuid = s₂.mScriptResources.find uuid) :
    s₁.getScriptResourceByUUID uuid = s₂.getScriptResourceByUUID uuid := by
  simp [getScriptResourceByUUID, h]

theorem throwCheck_error_params_iff (self : ScriptResourceManager) (uuid : String) :
    self._throwExceptionIfInvalidOrDuplicate uuid = .error .InvalidParametersException ↔
      uuid = "" := by
  unfold _throwExceptionIfInvalidOrDuplicate
  by_cases h : uuid = ""
  · simp [h]
  · cases hf : self.mScriptResources.find uuid <;> simp [h]

theorem throwCheck_error_state_iff (self : ScriptResourceManager) (uuid : String) :
    self._throwExceptionIfInvalidOrDuplicate uuid = .error .InvalidStateException ↔
      (uuid ≠ "" ∧ self.registered uuid = true) := by
  unfold _throwExceptionIfInvalidOrDuplicate registered
  by_cases h : uuid = ""
  · simp [h]
  · cases hf : self.mScriptResources.find uuid <;> simp [h]

theorem throwCheck_ok_iff (self : ScriptResourceManager) (uuid : String) :
    self._throwExceptionIfInvalidOrDuplicate uuid = .ok () ↔
      (uuid ≠ "" ∧ self.mScriptResources.find uuid = none) := by
  unfold _throwExceptionIfInvalidOrDuplicate
  by_cases h : uuid = ""
  · simp [h]
  · cases hf : self.mScriptResources.find uuid <;> simp [h]

theorem debugValidate_debug (env : Env) (hdebug : env.BS_DEBUG_MODE = true)
    (self : ScriptResourceManager) (uuid : String) :
    debugValidate env self uuid = self._throwExceptionIfInvalidOrDuplicate uuid := by
  simp [debugValidate, hdebug]

theorem debugValidate_of_valid (env : Env) (self : ScriptResourceManager) (uuid : String)
    (h : self._throwExceptionIfInvalidOrDuplicate uuid = .ok ()) :
    debugValidate env self uuid = .ok () := by
  unfold debugValidate
  cases env.BS_DEBUG_MODE
  · simp
  · simpa using h

theorem createManaged_of_error (env : Env) (self : ScriptResourceManager)
    (resource : HManagedResource) (inst mem : Ptr) (e : Exception)
    (h : debugValidate env self resource.uuid = .error e) :
    self.createManagedScriptResource env resource inst mem = (.error e, self) := by
  unfold createManagedScriptResource
  simp only [h]

theorem createManaged_of_ok (env : Env) (self : ScriptResourceManager)
    (resource : HManagedResource) (inst mem : Ptr)
    (h : debugValidate env self resource.uuid = .ok ()) :
    self.createManagedScriptResource env resource inst mem =
      (.ok mem,
        { mScriptResources := self.mScriptResources.assign resource.uuid mem
          objLog := self.objLog ++ [.construct mem inst resource] }) := by
  unfold createManagedScriptResource
  simp only [h]

theorem createBuiltin_of_error (env : Env) (self : ScriptResourceManager)
    (resource : HResource) (inst : Ptr) (e : Exception)
    (h : debugValidate env self resource.uuid = .error e) :
    self.createBuiltinScriptResource env resource inst = (.error e, self) := by
  unfold createBuiltinScriptResource
  simp only [h]

theorem createBuiltin_of_ok_none (env : Env) (self : ScriptResourceManager)
    (resource : HResource) (inst : Ptr)
    (h : debugValidate env self resource.uuid = .ok ())
    (hi : env.getBuiltinResourceInfo resource.rttiId = none) :
    self.createBuiltinScriptResource env resource inst = (.ok nullptr, self) := by
  unfold createBuiltinScriptResource
  simp only [h, hi]

theorem createBuiltin_of_ok_some (env : Env) (self : ScriptResourceManager)
    (resource : HResource) (inst : Ptr) (info : BuiltinResourceInfo)
    (h : debugValidate env self resource.uuid = .ok ())
    (hi : env.getBuiltinResourceInfo resource.rttiId = some info) :
    self.createBuiltinScriptResource env resource inst =
      (.ok (info.createCallback resource inst),
        { mScriptResources :=
            self.mScriptResources.assign resource.uuid (info.createCallback resource inst)
          objLog := self.objLog ++
            [.createCallback resource inst (info.createCallback resource inst)] }) := by
  unfold createBuiltinScriptResource
  simp only [h, hi]

/-! ## Script resource manager: the claims -/

/-- C1: in a debug build, `createManagedScriptResource` and `createBuiltinScriptResource`
raise `InvalidParametersException` exactly when the UUID of the handle is empty, raise
`InvalidStateException` exactly when the UUID is non-empty and already registered, and
whenever they raise, the manager (registry and object log) is what it was before the
call: nothing was created or registered. -/
theorem create_validation_debug (env : Env) (hdebug : env.BS_DEBUG_MODE = true)
    (self : ScriptResourceManager) (managed : HManagedResource) (resource : HResource)
    (inst mem : Ptr) :
    (((self.createManagedScriptResource env managed inst mem).1
          = .error .InvalidParametersException ↔ managed.uuid = "") ∧
      ((self.createManagedScriptResource env managed inst mem).1
          = .error .InvalidStateException ↔
        (managed.uuid ≠ "" ∧ self.registered managed.uuid = true)) ∧
      (∀ e, (self.createManagedScriptResource env managed inst mem).1 = .error e →
        (self.createManagedScriptResource env managed inst mem).2 = self)) ∧
    (((self.createBuiltinScriptResource env resource inst).1
          = .error .InvalidParametersException ↔ resource.uuid = "") ∧
      ((self.createBuiltinScriptResource env resource inst).1
          = .error .InvalidStateException ↔
        (resource.uuid ≠ "" ∧ self.registered resource.uuid = true)) ∧
      (∀ e, (self.createBuiltinScriptResource env resource inst).1 = .error e →
        (self.createBuiltinScriptResource env resource inst).2 = self)) := by
  constructor
  · have hd := debugValidate_debug env hdebug self managed.uuid
    rw [← throwCheck_error_params_iff self, ← throwCheck_error_state_iff self]
    cases hv : self._throwExceptionIfInvalidOrDuplicate managed.uuid with
    | error e =>
      rw [createManaged_of_error env self managed inst mem e (hd.trans hv)]
      simp
    | ok a =>
      rw [createManaged_of_ok env self managed inst mem (hd.trans hv)]
      simp
  · have hd := debugValidate_debug env hdebug self resource.uuid
    rw [← throwCheck_error_params_iff self, ← throwCheck_error_state_iff self]
    cases hv : self._throwExceptionIfInvalidOrDuplicate resource.uuid with
    | error e =>
      rw [createBuiltin_of_error env self resource inst e (hd.trans hv)]
      simp
    | ok a =>
      cases hi : env.getBuiltinResourceInfo resource.rttiId with
      | none =>
        rw [createBuiltin_of_ok_none env self resource inst (hd.trans hv) hi]
        simp
      | some info =>
        rw [createBuiltin_of_ok_some env self resource inst info (hd.trans hv) hi]
        simp

/-- C2: for a managed handle whose UUID `u` is non-empty and not yet registered,
`createManagedScriptResource` returns the object `r` it constructed (at the address `mem`
given by the allocator), its one action on script objects is that construction, `u` is
registered under `r` afterwards, `getScriptResource(u)` returns `r`, and the entry and
`getScriptResource(v)` of every other UUID `v` are what they were. -/
theorem create_managed_then_get (env : Env) (self : ScriptResourceManager)
    (resource : HManagedResource) (inst mem : Ptr)
    (hne : resource.uuid ≠ "") (hnew : self.registered resource.uuid = false) :
    ∃ after, self.createManagedScriptResource env resource inst mem = (.ok mem, after) ∧
      after.objLog = self.objLog ++ [.construct mem inst resource] ∧
      after.mScriptResources.find resource.uuid = some mem ∧
      after.registered resource.uuid = true ∧
      after.getScriptResourceByUUID resource.uuid = mem ∧
      (∀ v, v ≠ resource.uuid →
        after.mScriptResources.find v = self.mScriptResources.find v) ∧
      ∀ v, v ≠ resource.uuid →
        after.getScriptResourceByUUID v = self.getScriptResourceByUUID v := by
  have hfind : self.mScriptResources.find resource.uuid = none := by
    simpa [registered] using hnew
  have hval : debugValidate env self resource.uuid = .ok () :=
    debugValidate_of_valid env self _ ((throwCheck_ok_iff self resource.uuid).2 ⟨hne, hfind⟩)
  refine ⟨_, createManaged_of_ok env self resource inst mem hval, rfl, ?_, ?_, ?_, ?_, ?_⟩
  · exact UnorderedMap.find_assign_self _ _ _
  · simp [registered, UnorderedMap.find_assign_self]
  · simp [getScriptResourceByUUID, hne, UnorderedMap.find_assign_self]
  · intro v hv
    exact UnorderedMap.find_assign_ne _ _ _ _ hv
  · intro v hv
    apply getScriptResourceByUUID_congr
    exact UnorderedMap.find_assign_ne _ _ _ _ hv

/-- C3 as stated fails: in a debug build whose create callback returns null,
`getScriptResource(tex, true)` on the empty manager registers `"tex"` under the null
pointer; in that state `"tex"` is registered, yet `onResourceDestroyed("tex")` does not
notify a script resource and remove the entry: line 105 calls through the stored null
pointer and there is no state afterwards. -/
theorem onResourceDestroyed_null_entry_counterexample :
    (empty.getScriptResource debugEnvNullCallback texHandle true).2 = nullEntryManager ∧
    nullEntryManager.registered "tex" = true ∧
    nullEntryManager.mScriptResources.find "tex" = some nullptr ∧
    nullEntryManager.onResourceDestroyed "tex" = none ∧
    ¬ ∃ after, nullEntryManager.onResourceDestroyed "tex" = some after ∧
      after.getScriptResourceByUUID "tex" = nullptr := by
  refine ⟨rfl, rfl, rfl, rfl, ?_⟩
  rintro ⟨after, h, _⟩
  have h2 : nullEntryManager.onResourceDestroyed "tex" = none := rfl
  rw [h2] at h
  cases h

/-- C3, amended: when `u` is registered under a non-null script resource `p`,
`onResourceDestroyed(u)` returns, its one action on script objects is
`p->notifyResourceDestroyed()`, the entry of `u` is removed, so that `getScriptResource(u)`
returns null afterwards, and the entry of every other UUID is kept; when `u` is not
registered it returns with the manager unchanged and nothing notified. Nothing is said
on an entry that holds the null pointer. -/
theorem onResourceDestroyed_sync (self : ScriptResourceManager) (u : String) :
    (∀ p, self.mScriptResources.find u = some p → p ≠ nullptr →
      ∃ after, self.onResourceDestroyed u = some after ∧
        after.objLog = self.objLog ++ [.notifyResourceDestroyed p] ∧
        after.mScriptResources = self.mScriptResources.erase u ∧
        after.registered u = false ∧
        after.getScriptResourceByUUID u = nullptr ∧
        ∀ v, v ≠ u → after.mScriptResources.find v = self.mScriptResources.find v) ∧
    (self.registered u = false → self.onResourceDestroyed u = some self) := by
  refine ⟨?_, ?_⟩
  · intro p hp hnn
    have hnone := UnorderedMap.find_erase_self self.mScriptResources u
    refine ⟨{ mScriptResources := self.mScriptResources.erase u
              objLog := self.objLog ++ [.notifyResourceDestroyed p] },
      by simp [onResourceDestroyed, hp, hnn], rfl, rfl, ?_, ?_, ?_⟩
    · simp [registered, hnone]
    · simp [getScriptResourceByUUID, hnone]
    · intro v hv
      exact UnorderedMap.find_erase_ne _ _ _ hv
  · intro hreg
    have hfind : self.mScriptResources.find u = none := by
      simpa [registered] using hreg
    simp [onResourceDestroyed, hfind]

/-- C5: `destroyScriptResource(resource)` raises `InvalidParametersException` when the UUID
of the generic handle is empty and then leaves the manager as it was (the object is not
destroyed, the registry is not changed); for a non-empty UUID `u` it returns normally,
its one action on script objects is the destruction of the object, the entry of `u` is
gone, `getScriptResource(u)` returns null, and the entry of every other UUID is kept. -/
theorem destroyScriptResource_spec (self : ScriptResourceManager)
    (resource : ScriptResourceBase) :
    (resource.genericHandle.uuid = "" →
      self.destroyScriptResource resource = (.error .InvalidParametersException, self)) ∧
    (resource.genericHandle.uuid ≠ "" →
      (self.destroyScriptResource resource).1 = .ok () ∧
      (self.destroyScriptResource resource).2.objLog
        = self.objLog ++ [.destroy resource.addr] ∧
      (self.destroyScriptResource resource).2.registered resource.genericHandle.uuid
        = false ∧
      (self.destroyScriptResource resource).2.getScriptResourceByUUID
        resource.genericHandle.uuid = nullptr ∧
      ∀ v, v ≠ resource.genericHandle.uuid →
        (self.destroyScriptResource resource).2.mScriptResources.find v
          = self.mScriptResources.find v) := by
  constructor
  · intro h
    simp [destroyScriptResource, h]
  · intro h
    have hnone := UnorderedMap.find_erase_self self.mScriptResources
      resource.genericHandle.uuid
    refine ⟨?_, ?_, ?_, ?_, ?_⟩
    · simp [destroyScriptResource, h]
    · simp [destroyScriptResource, h]
    · simp [destroyScriptResource, h, registered, hnone]
    · simp [destroyScriptResource, h, getScriptResourceByUUID, hnone]
    · intro v hv
      simpa [destroyScriptResource, h] using UnorderedMap.find_erase_ne _ _ _ hv

/-- C9: when the UUID passes validation (`_throwExceptionIfInvalidOrDuplicate` returns
normally), `createBuiltinScriptResource` returns null and leaves the manager unchanged
if the assembly manager has no info for the RTTI id of the resource; otherwise it
returns the object produced by the create callback of that info and registers it under
the UUID, so that `getScriptResource(uuid)` returns that object afterwards. -/
theorem createBuiltinScriptResource_spec (env : Env) (self : ScriptResourceManager)
    (resource : HResource) (inst : Ptr)
    (hvalid : self._throwExceptionIfInvalidOrDuplicate resource.uuid = .ok ()) :
    (env.getBuiltinResourceInfo resource.rttiId = none →
      self.createBuiltinScriptResource env resource inst = (.ok nullptr, self)) ∧
    (∀ info, env.getBuiltinResourceInfo resource.rttiId = some info →
      (self.createBuiltinScriptResource env resource inst).1
        = .ok (info.createCallback resource inst) ∧
      (self.createBuiltinScriptResource env resource inst).2.mScriptResources.find
        resource.uuid = some (info.createCallback resource inst) ∧
      (self.createBuiltinScriptResource env resource inst).2.getScriptResourceByUUID
        resource.uuid = info.createCallback resource inst) := by
  have hne : resource.uuid ≠ "" := ((throwCheck_ok_iff self resource.uuid).1 hvalid).1
  have hval := debugValidate_of_valid env self resource.uuid hvalid
  constructor
  · intro hi
    exact createBuiltin_of_ok_none env self resource inst hval hi
  · intro info hi
    rw [createBuiltin_of_ok_some env self resource inst info hval hi]
    simp [getScriptResourceByUUID, hne, UnorderedMap.find_assign_self]

/-- Witness of C1: a debug build, the manager holding `"tex"`; a managed handle with an
empty UUID is rejected with `InvalidParametersException`, the handle `"tex"` with
`InvalidStateException`, and the manager is unchanged. -/
theorem create_validation_debug_witness :
    debugEnvWithInfo.BS_DEBUG_MODE = true ∧
    (texManager.createManagedScriptResource debugEnvWithInfo ⟨""⟩ 0 9).1
      = .error .InvalidParametersException ∧
    (texManager.createBuiltinScriptResource debugEnvWithInfo texHandle 0).1
      = .error .InvalidStateException ∧
    (texManager.createBuiltinScriptResource debugEnvWithInfo texHandle 0).2 = texManager :=
  ⟨rfl,
    (create_validation_debug debugEnvWithInfo rfl texManager ⟨""⟩ texHandle 0 9).1.1.2 rfl,
    (create_validation_debug debugEnvWithInfo rfl texManager ⟨""⟩ texHandle 0 9).2.2.1.2
      ⟨by decide, by decide⟩,
    (create_validation_debug debugEnvWithInfo rfl texManager ⟨""⟩ texHandle 0 9).2.2.2
      .InvalidStateException
      ((create_validation_debug debugEnvWithInfo rfl texManager ⟨""⟩ texHandle 0 9).2.2.1.2
        ⟨by decide, by decide⟩)⟩

/-- Witness of C2: on the manager holding `"tex"`, creating the managed resource `"mesh"`
at address 9 returns 9, logs the construction, registers `"mesh"` under 9 behind `"tex"`,
and `getScriptResource("mesh")` returns 9. -/
theorem create_managed_then_get_witness :
    (⟨"mesh"⟩ : HManagedResource).uuid ≠ "" ∧ texManager.registered "mesh" = false ∧
    texManager.createManagedScriptResource debugEnvNoInfo ⟨"mesh"⟩ 0 9
      = (.ok 9,
          { mScriptResources := [("tex", 7), ("mesh", 9)]
            objLog := [.construct 9 0 ⟨"mesh"⟩] }) ∧
    ∃ after, texManager.createManagedScriptResource debugEnvNoInfo ⟨"mesh"⟩ 0 9
        = (.ok 9, after) ∧
      after.objLog = texManager.objLog ++ [.construct 9 0 ⟨"mesh"⟩] ∧
      after.mScriptResources.find "mesh" = some 9 ∧
      after.registered "mesh" = true ∧
      after.getScriptResourceByUUID "mesh" = 9 ∧
      (∀ v, v ≠ "mesh" →
        after.mScriptResources.find v = texManager.mScriptResources.find v) ∧
      ∀ v, v ≠ "mesh" →
        after.getScriptResourceByUUID v = texManager.getScriptResourceByUUID v :=
  ⟨by decide, by decide, rfl,
    create_managed_then_get debugEnvNoInfo texManager ⟨"mesh"⟩ 0 9 (by decide) (by decide)⟩

/-- Witness of C9: on the empty manager the UUID `"tex"` passes validation; without an
info the call returns null and changes nothing, with an info it returns the callback's
object 103, which `getScriptResource("tex")` returns afterwards. -/
theorem createBuiltinScriptResource_spec_witness :
    empty._throwExceptionIfInvalidOrDuplicate texHandle.uuid = .ok () ∧
    empty.createBuiltinScriptResource debugEnvNoInfo texHandle 0 = (.ok nullptr, empty) ∧
    (empty.createBuiltinScriptResource debugEnvWithInfo texHandle 0).1 = .ok 103 ∧
    (empty.createBuiltinScriptResource debugEnvWithInfo texHandle 0).2.getScriptResourceByUUID
      texHandle.uuid = 103 :=
  ⟨rfl,
    (createBuiltinScriptResource_spec debugEnvNoInfo empty texHandle 0 rfl).1 rfl,
    ((createBuiltinScriptResource_spec debugEnvWithInfo empty texHandle 0 rfl).2 _ rfl).1,
    ((createBuiltinScriptResource_spec debugEnvWithInfo empty texHandle 0 rfl).2 _ rfl).2.2⟩

/-- C4 as stated fails: in a debug build whose create callback returns null, the first
`getScriptResource(tex, true)` on the empty manager registers `"tex"` under the null
pointer; on the resulting manager the UUID is non-empty and registered, yet the second
`getScriptResource(tex, true)` does not return the registered value with the registry
unchanged: it calls `createBuiltinScriptResource`, which raises
`InvalidStateException`. -/
theorem getScriptResource_registered_counterexample :
    empty.getScriptResource debugEnvNullCallback texHandle true
      = (.ok nullptr, nullEntryManager) ∧
    texHandle.uuid ≠ "" ∧
    nullEntryManager.registered texHandle.uuid = true ∧
    nullEntryManager.mScriptResources.find texHandle.uuid = some nullptr ∧
    nullEntryManager.getScriptResource debugEnvNullCallback texHandle true
      = (.error .InvalidStateException, nullEntryManager) ∧
    nullEntryManager.getScriptResource debugEnvNullCallback texHandle true
      ≠ (.ok nullptr, nullEntryManager) := by
  refine ⟨rfl, by decide, rfl, rfl, rfl, ?_⟩
  intro h
  have h1 := congrArg Prod.fst h
  have h2 : nullEntryManager.getScriptResource debugEnvNullCallback texHandle true
      = (.error .InvalidStateException, nullEntryManager) := rfl
  rw [h2] at h1
  cases h1

/-- C4, amended: `getScriptResource(resource, create)` returns null and leaves the manager
unchanged when the UUID is empty; when the UUID is non-empty and registered under `p`,
with `p` non-null or `create` false, it returns `p` and leaves the manager unchanged;
when the UUID is non-empty, not registered and `create` is false it returns null and
leaves the manager unchanged; and when the UUID is non-empty, `create` is true and the
lookup by UUID gives null (no entry, or an entry holding null) it is exactly
`createBuiltinScriptResource(resource)` with a null managed instance. -/
theorem getScriptResource_spec (env : Env) (self : ScriptResourceManager)
    (resource : HResource) (create : Bool) :
    (resource.uuid = "" → self.getScriptResource env resource create = (.ok nullptr, self)) ∧
    (∀ p, resource.uuid ≠ "" → self.mScriptResources.find resource.uuid = some p →
      (p ≠ nullptr ∨ create = false) →
      self.getScriptResource env resource create = (.ok p, self)) ∧
    (resource.uuid ≠ "" → self.registered resource.uuid = false → create = false →
      self.getScriptResource env resource create = (.ok nullptr, self)) ∧
    (resource.uuid ≠ "" → self.getScriptResourceByUUID resource.uuid = nullptr →
      create = true →
      self.getScriptResource env resource create
        = self.createBuiltinScriptResource env resource nullptr) ∧
    (self.registered resource.uuid = false →
      self.getScriptResourceByUUID resource.uuid = nullptr) := by
  refine ⟨?_, ?_, ?_, ?_, ?_⟩
  · intro h
    simp [getScriptResource, h]
  · intro p hne hp hor
    have hget : self.getScriptResourceByUUID resource.uuid = p := by
      simp [getScriptResourceByUUID, hne, hp]
    unfold getScriptResource
    simp only [hne, if_false, hget]
    rcases hor with h | h
    · simp [h]
    · simp [h]
  · intro hne hreg hc
    have hfind : self.mScriptResources.find resource.uuid = none := by
      simpa [registered] using hreg
    simp [getScriptResource, hne, hc, getScriptResourceByUUID, hfind]
  · intro hne hget hc
    simp [getScriptResource, hne, hget, hc]
  · intro hreg
    have hfind : self.mScriptResources.find resource.uuid = none := by
      simpa [registered] using hreg
    exact getScriptResourceByUUID_of_not_found self _ hfind

/-- Witness of the amended C3: on the manager holding `"tex"` at address 7,
`onResourceDestroyed("tex")` notifies object 7 and empties the registry, and
`onResourceDestroyed("mesh")` changes nothing. -/
theorem onResourceDestroyed_sync_witness :
    texManager.onResourceDestroyed "tex"
      = some { mScriptResources := [], objLog := [.notifyResourceDestroyed 7] } ∧
    (∃ after, texManager.onResourceDestroyed "tex" = some after ∧
      after.objLog = texManager.objLog ++ [.notifyResourceDestroyed 7] ∧
      after.mScriptResources = texManager.mScriptResources.erase "tex" ∧
      after.registered "tex" = false ∧
      after.getScriptResourceByUUID "tex" = nullptr ∧
      ∀ v, v ≠ "tex" → after.mScriptResources.find v = texManager.mScriptResources.find v) ∧
    texManager.onResourceDestroyed "mesh" = some texManager :=
  ⟨rfl,
    (onResourceDestroyed_sync texManager "tex").1 7 rfl (by decide),
    (onResourceDestroyed_sync texManager "mesh").2 rfl⟩

/-- Witness of C5: destroying the script object at address 7 whose handle is `"tex"` logs
its destruction and unregisters `"tex"`; an object whose handle has an empty UUID is
rejected and the manager is unchanged. -/
theorem destroyScriptResource_spec_witness :
    (texManager.destroyScriptResource ⟨7, texHandle⟩).2.objLog = [.destroy 7] ∧
    (texManager.destroyScriptResource ⟨7, texHandle⟩).2.getScriptResourceByUUID "tex"
      = nullptr ∧
    texManager.destroyScriptResource ⟨7, ⟨"", 3⟩⟩
      = (.error .InvalidParametersException, texManager) :=
  ⟨((destroyScriptResource_spec texManager ⟨7, texHandle⟩).2 (by decide)).2.1,
    ((destroyScriptResource_spec texManager ⟨7, texHandle⟩).2 (by decide)).2.2.2.1,
    (destroyScriptResource_spec texManager ⟨7, ⟨"", 3⟩⟩).1 rfl⟩

/-- Witness of the amended C4: on the manager holding `"tex"` at address 7 the lookup
returns 7 and changes nothing, also with `create` set; on the manager holding a null
entry for `"tex"` the lookup with `create` set is the call of
`createBuiltinScriptResource`. -/
theorem getScriptResource_spec_witness :
    texManager.getScriptResource debugEnvWithInfo texHandle true = (.ok 7, texManager) ∧
    nullEntryManager.getScriptResource debugEnvNullCallback texHandle true
      = nullEntryManager.createBuiltinScriptResource debugEnvNullCallback texHandle nullptr :=
  ⟨(getScriptResource_spec debugEnvWithInfo texManager texHandle true).2.1 7 (by decide) rfl
      (Or.inl (by decide)),
    (getScriptResource_spec debugEnvNullCallback nullEntryManager texHandle true).2.2.2.1
      (by decide) rfl rfl⟩

end ScriptResourceManager

namespace ct

/-! ## IBL utility: lemmas on loops and issued operations -/

theorem forRange_ops (body : Nat → RenderAPI → RenderAPI) (g : Nat → List GpuOp)
    (h : ∀ i api, (body i api).ops = api.ops ++ g i) :
    ∀ count i api,
      (forRange body i count api).ops = api.ops ++ (List.range' i count).flatMap g := by
  intro count
  induction count with
  | zero => intro i api; simp [forRange]
  | succ c ih =>
    intro i api
    simp [forRange, ih, h, List.range'_succ, List.append_assoc]

theorem forLoop_ops (body : Nat → RenderAPI → RenderAPI) (g : Nat → List GpuOp)
    (h : ∀ i api, (body i api).ops = api.ops ++ g i) (lo hi : Nat) (api : RenderAPI) :
    (forLoop lo hi body api).ops = api.ops ++ (List.range' lo (hi - lo)).flatMap g :=
  forRange_ops body g h (hi - lo) lo api

theorem flatMap_single_range (f : Nat → GpuOp) (n : Nat) :
    (List.range' 0 n).flatMap (fun i => [f i]) = (List.range n).map f := by
  rw [List.range_eq_range']
  induction (List.range' 0 n) with
  | nil => rfl
  | cons a l ih => simp [List.flatMap_cons, ih]

theorem downsampleCubemap_ops (src : Texture) (srcMip : Nat) (dst : Texture) (dstMip : Nat)
    (api : RenderAPI) :
    (downsampleCubemap src srcMip dst dstMip api).ops
      = api.ops ++ downsampleOps src srcMip dst dstMip := by
  unfold downsampleCubemap downsampleOps
  rw [forLoop_ops _ (fun face => [downsampleDraw src srcMip dst dstMip face])]
  · rw [Nat.sub_zero, flatMap_single_range]
  · intro i api
    rfl

theorem copyFaces_ops (src : Texture) (srcMip : Nat) (dst : Texture) (dstMip : Nat)
    (api : RenderAPI) :
    (forLoop 0 6 (fun face api => Texture.copy src dst face srcMip face dstMip api) api).ops
      = api.ops ++ copyFacesOps src srcMip dst dstMip := by
  unfold copyFacesOps
  rw [forLoop_ops _ (fun face => [GpuOp.copy src dst face srcMip face dstMip])]
  · rw [Nat.sub_zero, flatMap_single_range]
  · intro i api
    rfl

theorem importanceFaces_ops (cubemap scratch : Texture) (mip : Nat) (api : RenderAPI) :
    (forLoop 0 6 (fun face api =>
        ReflectionCubeImportanceSampleMat.execute scratch face mip
          { texture := cubemap, face := face, numFaces := 1, mipLevel := mip } api) api).ops
      = api.ops ++ (List.range 6).map (fun face => importanceDraw cubemap scratch face mip) := by
  rw [forLoop_ops _ (fun face => [importanceDraw cubemap scratch face mip])]
  · rw [Nat.sub_zero, flatMap_single_range]
  · intro i api
    rfl

/-- The operations issued by `filterCubemapForSpecular`, in order: the six copies of the
base level, the downsample passes into scratch levels `1 .. n - 1`, the importance-sample
passes into cubemap levels `1 .. n - 1`. -/
theorem filterCubemapForSpecular_ops (getMaxMipmaps : Nat → Nat → Nat → Nat → Nat)
    (cubemap : Texture) (scratch : Option Texture) (api : RenderAPI) :
    (filterCubemapForSpecular getMaxMipmaps cubemap scratch api).ops
      = api.ops ++
        (copyFacesOps cubemap 0 (specularScratch getMaxMipmaps cubemap scratch) 0 ++
          ((List.range' 1 (cubemap.getProperties.numMips - 1)).flatMap (fun mip =>
              downsampleOps (specularScratch getMaxMipmaps cubemap scratch) (mip - 1)
                (specularScratch getMaxMipmaps cubemap scratch) mip) ++
            (List.range' 1 (cubemap.getProperties.numMips - 1)).flatMap (fun mip =>
              (List.range 6).map (fun face =>
                importanceDraw cubemap (specularScratch getMaxMipmaps cubemap scratch)
                  face mip)))) := by
  unfold filterCubemapForSpecular
  simp only [RenderAPI.setRenderTarget]
  rw [forLoop_ops _ _ (fun mip api => importanceFaces_ops cubemap _ mip api),
    forLoop_ops _ _ (fun mip api => downsampleCubemap_ops _ (mip - 1) _ mip api),
    copyFaces_ops]
  simp only [List.append_assoc]

/-- Every downsample draw issued by `filterCubemapForSpecular` writes a scratch level `k`
with `1 ≤ k < getNumMipmaps()` from level `k - 1`. -/
theorem filterCubemapForSpecular_downsample_levels
    (getMaxMipmaps : Nat → Nat → Nat → Nat → Nat)
    (cubemap : Texture) (scratch : Option Texture) (api : RenderAPI) :
    ∃ ops,
      (filterCubemapForSpecular getMaxMipmaps cubemap scratch api).ops = api.ops ++ ops ∧
      ∀ op ∈ ops, op.isDownsample = true →
        ∃ f k, f < 6 ∧ 1 ≤ k ∧ k < cubemap.getProperties.numMips ∧
          op = downsampleDraw (specularScratch getMaxMipmaps cubemap scratch) (k - 1)
            (specularScratch getMaxMipmaps cubemap scratch) k f := by
  refine ⟨_, filterCubemapForSpecular_ops getMaxMipmaps cubemap scratch api, ?_⟩
  intro op hmem hds
  simp only [List.mem_append, List.mem_flatMap, List.mem_map, List.mem_range'_1,
    List.mem_range, copyFacesOps, downsampleOps] at hmem
  rcases hmem with ⟨f, _, hf⟩ | ⟨k, hk, f, hf6, hf⟩ | ⟨k, hk, f, _, hf⟩
  · subst hf
    simp [GpuOp.isDownsample] at hds
  · exact ⟨f, k, hf6, hk.1, by omega, hf.symm⟩
  · subst hf
    simp [GpuOp.isDownsample, importanceDraw] at hds

/-- C8 at a failing input: for a 4x4 cubemap with `getNumMipmaps() = 2` (levels 0, 1, 2)
and no caller scratch, the code issues the six base-level copies, the downsample pass
from scratch level 0 into level 1 and the importance-sample pass of level 1, in this
order, and nothing else: no downsample pass from scratch level 1 into level 2, the last
of the `n + 1 = 3` levels. -/
theorem filterCubemapForSpecular_skips_last_level :
    (filterCubemapForSpecular sampleMaxMipmaps (cubeOfSize 0 4 2) none freshApi).ops
      = copyFacesOps (cubeOfSize 0 4 2) 0
          (specularScratch sampleMaxMipmaps (cubeOfSize 0 4 2) none) 0 ++
        downsampleOps (specularScratch sampleMaxMipmaps (cubeOfSize 0 4 2) none) 0
          (specularScratch sampleMaxMipmaps (cubeOfSize 0 4 2) none) 1 ++
        (List.range 6).map (fun f =>
          importanceDraw (cubeOfSize 0 4 2)
            (specularScratch sampleMaxMipmaps (cubeOfSize 0 4 2) none) f 1) ∧
    (specularScratch sampleMaxMipmaps (cubeOfSize 0 4 2) none).getProperties.numMips = 2 ∧
    ∀ f, downsampleDraw (specularScratch sampleMaxMipmaps (cubeOfSize 0 4 2) none) 1
        (specularScratch sampleMaxMipmaps (cubeOfSize 0 4 2) none) 2 f
      ∉ (filterCubemapForSpecular sampleMaxMipmaps (cubeOfSize 0 4 2) none freshApi).ops := by
  refine ⟨by decide, by decide, ?_⟩
  intro f hmem
  obtain ⟨ops, hops, hall⟩ := filterCubemapForSpecular_downsample_levels sampleMaxMipmaps
    (cubeOfSize 0 4 2) none freshApi
  rw [hops] at hmem
  simp only [freshApi, List.nil_append] at hmem
  obtain ⟨f', k, _, _, hk, heq⟩ := hall _ hmem rfl
  simp only [downsampleDraw, GpuOp.drawScreenQuad.injEq, Option.some.injEq,
    RenderTarget.mk.injEq] at heq
  have hk2 : k < 2 := hk
  omega

/-! ## IBL utility: lemmas for `scaleCubemap` -/

end ct

end bs
